import Mathlib

/-!
# Verification of `VisualPIC/DataReading/rawDataReaders.py`

A shallow embedding of the raw-data reader subsystem of VisualPIC:
the generic cached reader (`RawDataReaderBase`), the OSIRIS and HiPACE
backend adapters, and the OpenPMD adapter's constructor guard.

Conventions of the embedding:
* h5py datasets and attributes are modelled by an `H5Record` structure;
  `file_content.get(name)` returns `Option H5Data` (`none` for a missing
  dataset, matching h5py's `get` returning `None`), while attribute access
  `attrs[k]` raising `KeyError` on a missing key is modelled by pattern
  matching on an `Option` and producing an error.
* numpy float64 arithmetic is modelled exactly: a double is a rational
  number, and every arithmetic operation rounds its exact rational result
  to 53 significand bits with round-to-nearest, ties-to-even (`rnd`).
  The model covers the normal range (no overflow/underflow), which is the
  range exercised here.  Rational arithmetic is expressed through the
  kernel-computable `qadd`/`qmul` (proved equal to `+`/`*` on `ℚ` in
  `qadd_eq`/`qmul_eq`) so that concrete instances evaluate by `decide`.
* Python exceptions are values of `PyExc`; fallible code returns `Except`.
  A data-extraction call additionally records, in a `ReadEffect`, the value
  it assigned to `self.currentTime` before returning or raising, because
  HiPACE's `x1` path can raise after that assignment has already happened.
* File-handle usage is made observable through a trace of `Ev` events.
-/

set_option autoImplicit false
set_option maxRecDepth 100000

namespace VisualPIC

/-! ## Kernel-computable rational arithmetic -/

/-- Addition on `ℚ` by the textbook cross-multiplication formula; equals `+`
(see `qadd_eq`) but reduces in the kernel. -/
def qadd (a b : ℚ) : ℚ := mkRat (a.num * b.den + b.num * a.den) (a.den * b.den)

/-- Multiplication on `ℚ` componentwise; equals `*` (see `qmul_eq`) but
reduces in the kernel. -/
def qmul (a b : ℚ) : ℚ := mkRat (a.num * b.num) (a.den * b.den)

/-! ## A model of IEEE-754 binary64 rounding on exact rationals -/

/-- Fuelled binary logarithm on `ℕ`: `nlog2Aux f n` is `⌊log₂ n⌋` for
`1 ≤ n < 2^f`.  Structural recursion on the fuel keeps it kernel-reducible. -/
def nlog2Aux : ℕ → ℕ → ℕ
  | 0, _ => 0
  | f + 1, n => if n ≤ 1 then 0 else nlog2Aux f (n / 2) + 1

/-- `⌊log₂ n⌋` for positive `n` (0 for `n = 0`); fuel 4096 is ample. -/
def nlog2 (n : ℕ) : ℕ := nlog2Aux 4096 n

/-- Does `2 ^ e ≤ n / d` hold (for positive `n`, `d`)? -/
def pow2le (e : ℤ) (n d : ℕ) : Bool :=
  if 0 ≤ e then decide (2 ^ e.toNat * d ≤ n) else decide (d ≤ 2 ^ (-e).toNat * n)

/-- `⌊log₂ (n / d)⌋` for positive `n`, `d`: start from the difference of the
bit lengths and correct by comparing against neighbouring powers of two. -/
def floorLog2Frac (n d : ℕ) : ℤ :=
  let e : ℤ := (nlog2 n : ℤ) - (nlog2 d : ℤ)
  if pow2le e n d then (if pow2le (e + 1) n d then e + 1 else e) else e - 1

/-- Round the fraction `n / d` (with `d > 0`) to the nearest integer,
ties to even. -/
def rhe2 (n d : ℤ) : ℤ :=
  let f := Int.fdiv n d
  let r := n - f * d
  if 2 * r < d then f
  else if d < 2 * r then f + 1
  else if f % 2 = 0 then f else f + 1

/-- Round the positive fraction `n / d` to 53 significand bits
(round to nearest, ties to even). -/
def rndPosFrac (n d : ℕ) : ℚ :=
  let e : ℤ := floorLog2Frac n d - 52
  if 0 ≤ e then Rat.ofInt (rhe2 n (d * 2 ^ e.toNat) * 2 ^ e.toNat)
  else mkRat (rhe2 (n * 2 ^ (-e).toNat) d) (2 ^ (-e).toNat)

/-- Round an exact rational to the nearest IEEE-754 binary64 value
(normal range; overflow/underflow are outside the exercised range). -/
def rnd (q : ℚ) : ℚ :=
  if q.num = 0 then 0
  else if 0 < q.num then rndPosFrac q.num.natAbs q.den
  else -rndPosFrac q.num.natAbs q.den

/-- float64 addition: exact sum, then rounding. -/
def fadd (x y : ℚ) : ℚ := rnd (qadd x y)

/-- float64 multiplication: exact product, then rounding. -/
def fmul (x y : ℚ) : ℚ := rnd (qmul x y)

/-- Conversion of an integer (numpy integer dataset element) to float64. -/
def intToFloat (n : ℤ) : ℚ := rnd (n : ℚ)

/-- The float literal `0.5`, the value of the Python expression `1/2`
(true division of ints yields a float in Python 3); `1/2` is exactly
representable in binary64. -/
def half : ℚ := mkRat 1 2

/-- The tag-to-ID synthesis of `OsirisRawDataReader._ReadData` and
`HiPACERawDataReader._ReadData` (lines 77-81 and 123-127):
`data = 1/2*(a+b)*(a+b+1)+b`.  In Python 3, `1/2` is the float `0.5`, and
`a`, `b` are integer numpy columns, so the expression evaluates as
`((0.5 * float64(a+b)) * float64(a+b+1)) + float64(b)` in float64
arithmetic, with `a+b` itself computed in integer arithmetic. -/
def floatCantor (a b : ℤ) : ℚ :=
  let s : ℤ := a + b
  let t1 := fmul half (intToFloat s)
  let t2 := fmul t1 (intToFloat (s + 1))
  fadd t2 (intToFloat b)

/-- The reference Cantor pairing formula named by the specification:
`id = (a+b)*(a+b+1)/2 + b` in exact integer arithmetic. -/
def cantorRef (a b : ℕ) : ℕ := (a + b) * (a + b + 1) / 2 + b

/-! ## Python exceptions, file events, and the h5py record model -/

/-- Python exceptions that the modelled code can raise. -/
inductive PyExc where
  | ioError : PyExc
  | keyError : String → PyExc
  | indexError : PyExc
  | typeError : PyExc
  | nameError : String → PyExc
  | runtimeError : String → PyExc
  | otherError : String → String → PyExc
  deriving DecidableEq, Repr

/-- Observable file-handle events of one adapter call. -/
inductive Ev where
  | openFile : Ev
  | closeFile : Ev
  deriving DecidableEq, Repr

/-- The value stored in an h5py dataset, as seen through `np.array`:
a 1-D float array, a 2-D integer (tag-pair) array, or the 0-d object
array produced by `np.array(None)` when `get` returned `None`. -/
inductive H5Data where
  | arr1 : List ℚ → H5Data
  | arr2 : List (ℤ × ℤ) → H5Data
  | none0d : H5Data
  deriving DecidableEq, Repr

/-- One opened OSIRIS/HiPACE h5 file: named datasets, the `TIME` attribute,
the per-dataset `UNITS` attribute and the top-level `TIME UNITS` attribute.
The two unit attributes store the text content of the attribute bytes
(the `str(...)[2:-1]` strip of the `b'...'` repr is modelled as yielding
this stored text). -/
structure H5Record where
  get : String → Option H5Data
  timeAttr : Option ℚ
  unitsAttrRaw : String → Option String
  timeUnitsAttrRaw : Option String

/-- `np.array(file_content.get(name))`: a missing dataset (`None`) becomes
the 0-d object array, an existing one is read as stored. -/
def npArray (o : Option H5Data) : H5Data := o.getD .none0d

/-- The observable effect of one `_ReadData` call: `timeSet` is the value the
call assigned to `self.currentTime` (`none` when it raised before reaching
that assignment), and `result` is the returned array or the exception raised.
This keeps error paths that raise after mutating `currentTime` (HiPACE's
`x1` shift) distinguishable from ones that raise before it. -/
structure ReadEffect (α : Type) where
  timeSet : Option ℚ
  result : Except PyExc α

/-! ## Backend adapter: OSIRIS (`OsirisRawDataReader`, lines 71-114) -/

/-- `OsirisRawDataReader._ReadData` (lines 75-86) on an opened file:
read the dataset (Cantor-pair synthesis for `"tag"`), read `attrs["TIME"][0]`
into `self.currentTime`, close, return.  A 2-D indexing failure (`tags[:,0]`
on a non-2-D value) raises `IndexError` before `TIME` is read; a missing
`TIME` attribute raises `KeyError`; both failures precede the `currentTime`
assignment (`timeSet = none`) and skip `close()`. -/
def osirisExtract (name : String) (rec : H5Record) :
    List Ev × ReadEffect H5Data :=
  if name = "tag" then
    match npArray (rec.get name) with
    | .arr2 ps =>
      let data := H5Data.arr1 (ps.map fun p => floatCantor p.1 p.2)
      match rec.timeAttr with
      | none => ([.openFile], ⟨none, .error (.keyError "TIME")⟩)
      | some tm => ([.openFile, .closeFile], ⟨some tm, .ok data⟩)
    | _ => ([.openFile], ⟨none, .error .indexError⟩)
  else
    match rec.timeAttr with
    | none => ([.openFile], ⟨none, .error (.keyError "TIME")⟩)
    | some tm => ([.openFile, .closeFile], ⟨some tm, .ok (npArray (rec.get name))⟩)

/-- `OsirisRawDataReader._ReadData` including `_OpenFile` (lines 104-109):
a missing file for the requested timestep raises before any handle exists. -/
def osirisReadDataFile (name : String) (fs : ℤ → Option H5Record) (t : ℤ) :
    List Ev × ReadEffect H5Data :=
  match fs t with
  | none => ([], ⟨none, .error .ioError⟩)
  | some rec => osirisExtract name rec

/-- `OsirisRawDataReader._ReadTime` (lines 88-91) on an opened file. -/
def osirisReadTimeE (rec : H5Record) : List Ev × Except PyExc ℚ :=
  match rec.timeAttr with
  | none => ([.openFile], .error (.keyError "TIME"))
  | some tm => ([.openFile, .closeFile], .ok tm)

/-- Left-to-right replacement of each non-overlapping pair of backslashes by
a single backslash, the effect of Python's `.replace("\\\\", "\\")`. -/
def unescapeBackslashes : List Char → List Char
  | [] => []
  | '\\' :: '\\' :: rest => '\\' :: unescapeBackslashes rest
  | c :: rest => c :: unescapeBackslashes rest

/-- The decoding applied to unit attributes in `_ReadUnits` (lines 93-97):
`str(...)[2:-1].replace("\\\\", "\\")`, i.e. strip the `b'...'` repr (the
record model already stores the inner text) and un-escape doubled
backslashes. -/
def osirisDecodeUnits (s : String) : String := ⟨unescapeBackslashes s.data⟩

/-- `OsirisRawDataReader._ReadUnits` (lines 93-97) on the opened bootstrap
file: `file_content[name]` raises `KeyError` for a missing dataset, then the
`UNITS` and `TIME UNITS` attributes are read and decoded, then the file is
closed. -/
def osirisReadUnitsE (name : String) (rec : H5Record) :
    List Ev × Except PyExc (String × String) :=
  match rec.get name with
  | none => ([.openFile], .error (.keyError name))
  | some _ =>
    match rec.unitsAttrRaw name with
    | none => ([.openFile], .error (.keyError "UNITS"))
    | some u =>
      match rec.timeUnitsAttrRaw with
      | none => ([.openFile], .error (.keyError "TIME UNITS"))
      | some tu =>
        ([.openFile, .closeFile], .ok (osirisDecodeUnits u, osirisDecodeUnits tu))

/-! ## Backend adapter: HiPACE (`HiPACERawDataReader`, lines 117-168) -/

/-- `HiPACERawDataReader._ReadData` (lines 121-134) on an opened file: same
dataset read and Cantor-pair synthesis as OSIRIS, then `TIME` is read into
`self.currentTime` (line 130), then `data += self.currentTime` when the
requested field is `"x1"` (lines 131-132), then close.  The in-place `+=` on
the 0-d object array of a missing dataset raises `TypeError` — *after*
`currentTime` was already assigned, hence `timeSet = some tm` on that error
path.  Elementwise addition is float64 addition. -/
def hipaceExtract (name : String) (rec : H5Record) :
    List Ev × ReadEffect H5Data :=
  if name = "tag" then
    match npArray (rec.get name) with
    | .arr2 ps =>
      let data := H5Data.arr1 (ps.map fun p => floatCantor p.1 p.2)
      match rec.timeAttr with
      | none => ([.openFile], ⟨none, .error (.keyError "TIME")⟩)
      | some tm => ([.openFile, .closeFile], ⟨some tm, .ok data⟩)
    | _ => ([.openFile], ⟨none, .error .indexError⟩)
  else
    match rec.timeAttr with
    | none => ([.openFile], ⟨none, .error (.keyError "TIME")⟩)
    | some tm =>
      if name = "x1" then
        match npArray (rec.get name) with
        | .arr1 xs =>
          ([.openFile, .closeFile], ⟨some tm, .ok (.arr1 (xs.map fun x => fadd x tm))⟩)
        | _ => ([.openFile], ⟨some tm, .error .typeError⟩)
      else ([.openFile, .closeFile], ⟨some tm, .ok (npArray (rec.get name))⟩)

/-- `HiPACERawDataReader._ReadData` including `_OpenFile` (lines 153-158). -/
def hipaceReadDataFile (name : String) (fs : ℤ → Option H5Record) (t : ℤ) :
    List Ev × ReadEffect H5Data :=
  match fs t with
  | none => ([], ⟨none, .error .ioError⟩)
  | some rec => hipaceExtract name rec

/-- `HiPACERawDataReader._ReadTime` (lines 136-139) on an opened file. -/
def hipaceReadTimeE (rec : H5Record) : List Ev × Except PyExc ℚ :=
  match rec.timeAttr with
  | none => ([.openFile], .error (.keyError "TIME"))
  | some tm => ([.openFile, .closeFile], .ok tm)

/-- `HiPACERawDataReader._ReadUnits` (lines 141-151): hardcoded unit labels
keyed by `dataName`; no file is opened, so the event trace is empty. -/
def hipaceReadUnitsE (dataName : String) :
    List Ev × Except PyExc (String × String) :=
  ([], .ok
    (if dataName = "x1" ∨ dataName = "x2" ∨ dataName = "x3" then "c/ \\omega_p"
     else if dataName = "p1" ∨ dataName = "p2" ∨ dataName = "p3" then "m_e c"
     else if dataName = "q" then "e"
     else "unknown",
     "1/ \\omega_p"))

/-! ## Backend adapter: OpenPMD (`OpenPMDRawDataReader`, lines 170-217) -/

/-- Python builtin exception names in scope at line 174.  `RunTimeError`
(as spelled in the source) is not among them: Python's builtin is
`RuntimeError`. -/
def pythonBuiltinExceptionNames : List String :=
  ["BaseException", "Exception", "RuntimeError", "ImportError", "KeyError",
   "IndexError", "IOError", "OSError", "TypeError", "ValueError", "NameError",
   "NotImplementedError", "AttributeError", "StopIteration"]

/-- Evaluation of a Python `raise Ident(msg)` statement: if `Ident` is a
defined (builtin) exception name, that exception is raised with `msg`;
otherwise evaluating the identifier itself raises `NameError`. -/
def evalRaise (ident msg : String) : PyExc :=
  if ident ∈ pythonBuiltinExceptionNames then
    if ident = "RuntimeError" then .runtimeError msg else .otherError ident msg
  else .nameError ident

/-- The message of line 174-175. -/
def openPMDInstallMsg : String :=
  "You need to install openPMD-viewer, e.g. with:\npip install openPMD-viewer"

/-- `OpenPMDRawDataReader.__init__` (lines 171-180): if openPMD-viewer is not
installed, execute `raise RunTimeError(install message)` before anything else;
otherwise construct the timeseries collaborator and run the base-class
bootstrap, abstracted here as `rest` (its event trace and outcome). -/
def openPMDInit (openpmdInstalled : Bool) (rest : List Ev × Except PyExc Unit) :
    List Ev × Except PyExc Unit :=
  if ¬ openpmdInstalled then ([], .error (evalRaise "RunTimeError" openPMDInstallMsg))
  else rest

/-! ## The generic cached reader (`RawDataReaderBase`, lines 35-68) -/

/-- The immutable identity of a reader (slots of the `DataReader` base plus
`firstTimeStep`). -/
structure Descriptor where
  location : String
  speciesName : String
  dataName : String
  internalName : String
  firstTimeStep : ℤ
  deriving DecidableEq, Repr

/-- `RawDataReaderBase.__init__` (lines 38-42).  Modelled from the spec:
`DataReader.__init__` (in `dataReader.py`, outside this repository slice)
stores `location`, `speciesName`, `dataName`, `internalName` as given.
Line 40 then overwrites `self.internalName` with `dataName`. -/
def initRawReader (location speciesName dataName internalName : String)
    (firstTimeStep : ℤ) : Descriptor :=
  let base : Descriptor :=
    { location := location, speciesName := speciesName, dataName := dataName,
      internalName := internalName, firstTimeStep := firstTimeStep }
  { base with internalName := dataName }

/-- The mutable cache slots of a reader.  Modelled from the spec:
`DataReader.__init__` initialises `currentTimeStep` to a sentinel meaning
"none" (here `Option.none`), and `dataUnits`/`timeUnits` to the empty-string
sentinel meaning "unresolved". -/
structure ReaderState where
  currentTimeStep : Option ℤ
  currentTime : ℚ
  data : H5Data
  dataUnits : String
  timeUnits : String
  deriving DecidableEq, Repr

/-- A backend adapter as the base class sees it: the abstract operations
`_ReadData`, `_ReadTime`, `_ReadUnits`.  `_ReadData` reports, as a
`ReadEffect`, the `currentTime` assignment it performed (possibly before
raising) together with the returned array or exception; `_ReadTime` either
sets `currentTime` and returns (`.ok`) or raises before the assignment;
`_ReadUnits` returns the `(dataUnits, timeUnits)` pair it sets. -/
structure Adapter where
  readData : ℤ → ReadEffect H5Data
  readTime : ℤ → Except PyExc ℚ
  readUnits : Except PyExc (String × String)

/-- `RawDataReaderBase.GetData` (lines 44-48).  The result triple is
(returned value or raised exception, state after the call, number of
`_ReadData` invocations made by this call).  Note that
`self.currentTimeStep = timeStep` is executed before `_ReadData` is called,
so a raising `_ReadData` leaves the new timestep in place; and any
`currentTime` assignment `_ReadData` made before raising (its `timeSet`)
also persists. -/
def GetData (A : Adapter) (s : ReaderState) (t : ℤ) :
    Except PyExc H5Data × ReaderState × ℕ :=
  if some t ≠ s.currentTimeStep then
    let eff := A.readData t
    let s1 : ReaderState :=
      match eff.timeSet with
      | none => { s with currentTimeStep := some t }
      | some tm => { s with currentTimeStep := some t, currentTime := tm }
    match eff.result with
    | .error e => (.error e, s1, 1)
    | .ok d => (.ok d, { s1 with data := d }, 1)
  else (.ok s.data, s, 0)

/-- `RawDataReaderBase.GetTime` (lines 55-59), with the count of `_ReadTime`
invocations made by this call. -/
def GetTime (A : Adapter) (s : ReaderState) (t : ℤ) :
    Except PyExc ℚ × ReaderState × ℕ :=
  if some t ≠ s.currentTimeStep then
    match A.readTime t with
    | .error e => (.error e, { s with currentTimeStep := some t }, 1)
    | .ok tm => (.ok tm, { s with currentTimeStep := some t, currentTime := tm }, 1)
  else (.ok s.currentTime, s, 0)

/-- `RawDataReaderBase.GetDataUnits` (lines 50-53), with the count of
`_ReadUnits` invocations made by this call. -/
def GetDataUnits (A : Adapter) (s : ReaderState) :
    Except PyExc String × ReaderState × ℕ :=
  if s.dataUnits = "" then
    match A.readUnits with
    | .error e => (.error e, s, 1)
    | .ok (du, tu) => (.ok du, { s with dataUnits := du, timeUnits := tu }, 1)
  else (.ok s.dataUnits, s, 0)

/-- `RawDataReaderBase.GetTimeUnits` (lines 61-64). -/
def GetTimeUnits (A : Adapter) (s : ReaderState) :
    Except PyExc String × ReaderState × ℕ :=
  if s.timeUnits = "" then
    match A.readUnits with
    | .error e => (.error e, s, 1)
    | .ok (du, tu) => (.ok tu, { s with dataUnits := du, timeUnits := tu }, 1)
  else (.ok s.timeUnits, s, 0)

/-- The OSIRIS adapter of a constructed reader: every on-disk lookup of
`_ReadData` and `_ReadUnits` uses the reader's stored `internalName`. -/
def osirisAdapterOf (d : Descriptor) (fs : ℤ → Option H5Record) : Adapter where
  readData := fun t => (osirisReadDataFile d.internalName fs t).2
  readTime := fun t =>
    match fs t with
    | none => .error .ioError
    | some rec => (osirisReadTimeE rec).2
  readUnits :=
    match fs d.firstTimeStep with
    | none => .error .ioError
    | some rec => (osirisReadUnitsE d.internalName rec).2

/-- The HiPACE adapter of a constructed reader, wired from the per-record
reads above; `_ReadData` and the dataset lookups use `internalName`, the
hardcoded units table is keyed by `dataName`. -/
def hipaceAdapterOf (d : Descriptor) (fs : ℤ → Option H5Record) : Adapter where
  readData := fun t => (hipaceReadDataFile d.internalName fs t).2
  readTime := fun t =>
    match fs t with
    | none => .error .ioError
    | some rec => (hipaceReadTimeE rec).2
  readUnits := (hipaceReadUnitsE d.dataName).2

/-! ## Concrete fixtures used by the closed instances below -/

/-- A freshly constructed cache state: sentinel timestep, unresolved units. -/
def freshState : ReaderState :=
  { currentTimeStep := none, currentTime := 0, data := .none0d,
    dataUnits := "", timeUnits := "" }

/-- A stub adapter whose extractions always succeed with fixed values. -/
def stubAdapter : Adapter :=
  { readData := fun _ => ⟨some 9, .ok (.arr1 [2])⟩,
    readTime := fun _ => .ok 9,
    readUnits := .ok ("u", "v") }

/-- A stub adapter for the time-first scenario: data `[10]`, time `99`. -/
def c1Adapter : Adapter :=
  { readData := fun _ => ⟨some 99, .ok (.arr1 [10])⟩,
    readTime := fun _ => .ok 99,
    readUnits := .ok ("u", "v") }

/-- A cache state holding data `[1]` and time `7` for timestep `3`. -/
def c1State : ReaderState :=
  { currentTimeStep := some 3, currentTime := 7, data := .arr1 [1],
    dataUnits := "u", timeUnits := "v" }

/-- A stub adapter whose extractions always raise, before any `currentTime`
assignment (the shape of every OSIRIS failure and HiPACE's non-`x1` ones). -/
def failAdapter : Adapter :=
  { readData := fun _ => ⟨none, .error .ioError⟩,
    readTime := fun _ => .error (.keyError "TIME"),
    readUnits := .ok ("u", "v") }

/-- A consistent cache state: data `[1, 2]`, time `7`, timestep `3`. -/
def c2State : ReaderState :=
  { currentTimeStep := some 3, currentTime := 7, data := .arr1 [1, 2],
    dataUnits := "u", timeUnits := "v" }

/-- A HiPACE file that has a `TIME` attribute (`9`) but no `x1` dataset:
reading `x1` assigns `currentTime` and then raises `TypeError` on the
`+=` against the 0-d object array. -/
def failX1Record : H5Record :=
  { get := fun _ => none,
    timeAttr := some 9,
    unitsAttrRaw := fun _ => none,
    timeUnitsAttrRaw := none }

/-- A filesystem with `failX1Record` at timestep 5 and nothing else. -/
def c2Files : ℤ → Option H5Record := fun t =>
  if t = 5 then some failX1Record else none

/-- A HiPACE reader for `x1` over `c2Files`, built through the source's
constructor and adapter wiring. -/
def c2HipaceAdapter : Adapter :=
  hipaceAdapterOf (initRawReader "loc" "sp" "x1" "x1" 0) c2Files

/-- A stub adapter with distinct payloads at timesteps `1` and `2`. -/
def c8Adapter : Adapter :=
  { readData := fun t =>
      if t = 1 then ⟨some 10, .ok (.arr1 [1])⟩ else ⟨some 20, .ok (.arr1 [2])⟩,
    readTime := fun t => if t = 1 then .ok 10 else .ok 20,
    readUnits := .ok ("u", "v") }

/-- A stub adapter whose units resolution yields the empty string for the
data units (realised by OSIRIS on `c9Record`, see the C9 counterexample). -/
def emptyUnitsAdapter : Adapter :=
  { readData := fun _ => ⟨some 0, .ok .none0d⟩,
    readTime := fun _ => .ok 0,
    readUnits := .ok ("", "s") }

/-- A stub adapter whose units resolution yields the empty string for the
time units (realised by OSIRIS on `c9TimeRecord`). -/
def emptyTimeUnitsAdapter : Adapter :=
  { readData := fun _ => ⟨some 0, .ok .none0d⟩,
    readTime := fun _ => .ok 0,
    readUnits := .ok ("u", "") }

/-- An OSIRIS bootstrap file whose top-level `TIME UNITS` attribute text is
empty while the `q` dataset's `UNITS` text is `"u"`. -/
def c9TimeRecord : H5Record :=
  { get := fun n => if n = "q" then some (.arr1 [1]) else none,
    timeAttr := some 2,
    unitsAttrRaw := fun n => if n = "q" then some "u" else none,
    timeUnitsAttrRaw := some "" }

/-- An OSIRIS bootstrap file whose `q` dataset carries an empty `UNITS`
attribute text. -/
def c9Record : H5Record :=
  { get := fun n => if n = "q" then some (.arr1 [1]) else none,
    timeAttr := some 2,
    unitsAttrRaw := fun n => if n = "q" then some "" else none,
    timeUnitsAttrRaw := some "s" }

/-- A stub adapter resolving to the HiPACE spatial-coordinate unit labels. -/
def unitsAdapter : Adapter :=
  { readData := fun _ => ⟨some 0, .ok .none0d⟩,
    readTime := fun _ => .ok 0,
    readUnits := .ok ("c/ \\omega_p", "1/ \\omega_p") }

/-- A HiPACE file with `x1 = [1.0, -0.5]` at time `2.5` and `p1 = [3.0]`. -/
def c4Record : H5Record :=
  { get := fun n =>
      if n = "x1" then some (.arr1 [1, mkRat (-1) 2])
      else if n = "p1" then some (.arr1 [3]) else none,
    timeAttr := some (mkRat 5 2),
    unitsAttrRaw := fun _ => none,
    timeUnitsAttrRaw := none }

/-- A file whose `p1` dataset exists but whose `TIME` attribute is absent,
so reading data raises `KeyError` after the file was opened. -/
def noTimeRecord : H5Record :=
  { get := fun n => if n = "p1" then some (.arr1 [1]) else none,
    timeAttr := none,
    unitsAttrRaw := fun _ => none,
    timeUnitsAttrRaw := none }

/-- A fully well-formed file for the success paths of both volume adapters. -/
def okRecord : H5Record :=
  { get := fun n =>
      if n = "p1" then some (.arr1 [1])
      else if n = "tag" then some (.arr2 [(1, 2)]) else none,
    timeAttr := some 3,
    unitsAttrRaw := fun n => if n = "p1" then some "m_e c" else none,
    timeUnitsAttrRaw := some "1/ \\omega_p" }

/-- The post-guard work of `OpenPMDRawDataReader.__init__` in an environment
where everything would succeed (collaborator constructed, bootstrap file
opened and closed). -/
def demoBootstrap : List Ev × Except PyExc Unit :=
  ([Ev.openFile, Ev.closeFile], .ok ())

/-! ## Foundational theorems about the model -/

theorem qadd_eq (a b : ℚ) : qadd a b = a + b := (Rat.add_def' a b).symm

theorem qmul_eq (a b : ℚ) : qmul a b = a * b := by
  rw [qmul, Rat.mkRat_eq_divInt]
  conv_rhs => rw [← Rat.num_divInt_den a, ← Rat.num_divInt_den b, Rat.divInt_mul_divInt']
  push_cast
  rfl

theorem half_eq : half = 1 / 2 := by
  rw [half, Rat.mkRat_eq_divInt, Rat.divInt_eq_div]
  norm_num

theorem floatCantor_three_five : floatCantor 3 5 = 41 := by decide

theorem floatCantor_zero_zero : floatCantor 0 0 = 0 := by decide

/-- The reference Cantor pairing is injective. -/
theorem cantorRef_injective (a b a' b' : ℕ)
    (h : cantorRef a b = cantorRef a' b') : a = a' ∧ b = b' := by
  have key : ∀ x y u v : ℕ, x + y < u + v → cantorRef x y < cantorRef u v := by
    intro x y u v hlt
    unfold cantorRef
    have h1 : (x + y) * (x + y + 1) / 2 * 2 = (x + y) * (x + y + 1) :=
      Nat.div_mul_cancel (Nat.even_mul_succ_self (x + y)).two_dvd
    have h2 : (u + v) * (u + v + 1) / 2 * 2 = (u + v) * (u + v + 1) :=
      Nat.div_mul_cancel (Nat.even_mul_succ_self (u + v)).two_dvd
    have h3 : (x + y + 1) * (x + y + 2) ≤ (u + v) * (u + v + 1) :=
      Nat.mul_le_mul (by omega) (by omega)
    have h4 : (x + y + 1) * (x + y + 2) = (x + y) * (x + y + 1) + 2 * (x + y) + 2 := by
      ring
    omega
  rcases Nat.lt_trichotomy (a + b) (a' + b') with hlt | heq | hgt
  · exact absurd h (Nat.ne_of_lt (key a b a' b' hlt))
  · have hT : (a + b) * (a + b + 1) / 2 = (a' + b') * (a' + b' + 1) / 2 := by rw [heq]
    unfold cantorRef at h
    omega
  · exact absurd h.symm (Nat.ne_of_lt (key a' b' a b hgt))

/-! ## Claims -/

/-- Claim C7 (confirmed): for every reader and timestep `t`, calling
`GetData(t)` and then `GetData(t)` again with no intervening call at a
different timestep triggers the adapter's extraction only on the first call,
and both calls return the identical array. -/
theorem claim_C7_repeat_getdata (A : Adapter) (s : ReaderState) (t : ℤ)
    (d : H5Data) (tm : ℚ)
    (hfresh : some t ≠ s.currentTimeStep)
    (hread : A.readData t = ⟨some tm, .ok d⟩) :
    (GetData A s t).2.2 = 1 ∧ (GetData A s t).1 = .ok d ∧
    (GetData A (GetData A s t).2.1 t).2.2 = 0 ∧
    (GetData A (GetData A s t).2.1 t).1 = .ok d := by
  have h1 : GetData A s t =
      (.ok d, { s with currentTimeStep := some t, currentTime := tm, data := d }, 1) := by
    unfold GetData
    rw [if_pos hfresh, hread]
  refine ⟨by rw [h1], by rw [h1], ?_, ?_⟩ <;> rw [h1] <;> simp [GetData]

/-- Closed instance of C7 at a concrete stub adapter and fresh state. -/
theorem claim_C7_witness :
    (GetData stubAdapter freshState 4).2.2 = 1 ∧
    (GetData stubAdapter freshState 4).1 = .ok (.arr1 [2]) ∧
    (GetData stubAdapter (GetData stubAdapter freshState 4).2.1 4).2.2 = 0 ∧
    (GetData stubAdapter (GetData stubAdapter freshState 4).2.1 4).1 = .ok (.arr1 [2]) :=
  claim_C7_repeat_getdata stubAdapter freshState 4 (.arr1 [2]) 9 (by decide) rfl

/-- Claim C8 (confirmed): for distinct timesteps `t1 ≠ t2`, the sequence
`GetData(t1); GetData(t2); GetData(t1)` triggers the adapter's extraction on
all three calls; the third call re-extracts instead of reusing the value the
first call cached for `t1`. -/
theorem claim_C8_no_cross_timestep_reuse (A : Adapter) (s : ReaderState)
    (t1 t2 : ℤ) (d1 d2 : H5Data) (m1 m2 : ℚ)
    (hne : t1 ≠ t2) (hfresh : some t1 ≠ s.currentTimeStep)
    (h1 : A.readData t1 = ⟨some m1, .ok d1⟩)
    (h2 : A.readData t2 = ⟨some m2, .ok d2⟩) :
    (GetData A s t1).2.2 = 1 ∧
    (GetData A (GetData A s t1).2.1 t2).2.2 = 1 ∧
    (GetData A (GetData A (GetData A s t1).2.1 t2).2.1 t1).2.2 = 1 ∧
    (GetData A (GetData A (GetData A s t1).2.1 t2).2.1 t1).1 = .ok d1 := by
  have e1 : GetData A s t1 =
      (.ok d1, { s with currentTimeStep := some t1, currentTime := m1, data := d1 }, 1) := by
    unfold GetData
    rw [if_pos hfresh, h1]
  have e2 : GetData A { s with currentTimeStep := some t1, currentTime := m1, data := d1 } t2 =
      (.ok d2, { s with currentTimeStep := some t2, currentTime := m2, data := d2 }, 1) := by
    unfold GetData
    rw [if_pos (by simp [Ne, hne.symm]), h2]
  have e3 : GetData A { s with currentTimeStep := some t2, currentTime := m2, data := d2 } t1 =
      (.ok d1, { s with currentTimeStep := some t1, currentTime := m1, data := d1 }, 1) := by
    unfold GetData
    rw [if_pos (by simp [Ne, hne]), h1]
  rw [e1, e2, e3]
  exact ⟨rfl, rfl, rfl, rfl⟩

/-- Closed instance of C8 at a concrete stub adapter and fresh state. -/
theorem claim_C8_witness :
    (GetData c8Adapter freshState 1).2.2 = 1 ∧
    (GetData c8Adapter (GetData c8Adapter freshState 1).2.1 2).2.2 = 1 ∧
    (GetData c8Adapter
      (GetData c8Adapter (GetData c8Adapter freshState 1).2.1 2).2.1 1).2.2 = 1 ∧
    (GetData c8Adapter
      (GetData c8Adapter (GetData c8Adapter freshState 1).2.1 2).2.1 1).1 = .ok (.arr1 [1]) :=
  claim_C8_no_cross_timestep_reuse c8Adapter freshState 1 2 (.arr1 [1]) (.arr1 [2]) 10 20
    (by decide) (by decide) rfl rfl

/-- Counterexample to claim C1 as stated: after `GetTime(5)` on a state whose
cache holds timestep 3, the subsequent `GetData(5)` performs zero extractions
(not "exactly once") and returns the stale array `[1]` cached for timestep 3,
although the adapter's extraction at 5 would yield `[10]`. -/
theorem claim_C1_counterexample :
    (GetTime c1Adapter c1State 5).2.2 = 1 ∧
    (GetData c1Adapter (GetTime c1Adapter c1State 5).2.1 5).2.2 = 0 ∧
    (GetData c1Adapter (GetTime c1Adapter c1State 5).2.1 5).1 = .ok (.arr1 [1]) ∧
    c1Adapter.readData 5 = ⟨some 99, .ok (.arr1 [10])⟩ ∧
    c1State.data = .arr1 [1] :=
  ⟨rfl, rfl, rfl, rfl, rfl⟩

/-- Claim C1 (amended): calling `GetTime(t)` first populates `currentTime`
without reading the data array; but because `GetData` and `GetTime` share the
single `currentTimeStep` cache guard, a subsequent `GetData(t)` at the same
timestep performs no extraction and returns the previously cached (stale)
data array, while a subsequent `GetTime(t)` performs no extraction and
returns the cached `currentTime`. -/
theorem claim_C1_time_first (A : Adapter) (s : ReaderState) (t : ℤ) (tm : ℚ)
    (hfresh : some t ≠ s.currentTimeStep) (ht : A.readTime t = .ok tm) :
    (GetTime A s t).2.2 = 1 ∧
    (GetTime A s t).1 = .ok tm ∧
    (GetTime A s t).2.1.currentTime = tm ∧
    (GetTime A s t).2.1.data = s.data ∧
    (∀ rd, GetTime { A with readData := rd } s t = GetTime A s t) ∧
    (GetData A (GetTime A s t).2.1 t).2.2 = 0 ∧
    (GetData A (GetTime A s t).2.1 t).1 = .ok s.data ∧
    (GetTime A (GetTime A s t).2.1 t).2.2 = 0 ∧
    (GetTime A (GetTime A s t).2.1 t).1 = .ok tm := by
  have h1 : GetTime A s t =
      (.ok tm, { s with currentTimeStep := some t, currentTime := tm }, 1) := by
    unfold GetTime
    rw [if_pos hfresh, ht]
  refine ⟨by rw [h1], by rw [h1], by rw [h1], by rw [h1], fun rd => rfl, ?_, ?_, ?_, ?_⟩ <;>
    rw [h1] <;> simp [GetData, GetTime]

/-- Closed instance of the amended C1 at a concrete adapter and state. -/
theorem claim_C1_witness :
    (GetTime c1Adapter c1State 5).2.2 = 1 ∧
    (GetTime c1Adapter c1State 5).1 = .ok 99 ∧
    (GetTime c1Adapter c1State 5).2.1.currentTime = 99 ∧
    (GetTime c1Adapter c1State 5).2.1.data = c1State.data ∧
    (GetData c1Adapter (GetTime c1Adapter c1State 5).2.1 5).2.2 = 0 ∧
    (GetData c1Adapter (GetTime c1Adapter c1State 5).2.1 5).1 = .ok c1State.data ∧
    (GetTime c1Adapter (GetTime c1Adapter c1State 5).2.1 5).2.2 = 0 ∧
    (GetTime c1Adapter (GetTime c1Adapter c1State 5).2.1 5).1 = .ok 99 := by
  obtain ⟨h1, h2, h3, h4, -, h5, h6, h7, h8⟩ :=
    claim_C1_time_first c1Adapter c1State 5 99 (by decide) rfl
  exact ⟨h1, h2, h3, h4, h5, h6, h7, h8⟩

/-- Counterexample to claim C2 as stated, in two concrete scenarios.
Scenario 1: on a consistent cache for timestep 3, a `GetData(5)` whose
extraction raises before assigning `currentTime` leaves `currentTimeStep` at
the new value 5 (not its prior value 3) while `data` and `currentTime` keep
their old values.  Scenario 2: a HiPACE `x1` reader over a file with
`TIME = 9` but no `x1` dataset raises `TypeError` only after `_ReadData`
assigned `self.currentTime`, so the failed call additionally replaces
`currentTime` (7 becomes 9) while `data` stays stale — in both scenarios a
mismatched combination, never the prior consistent state. -/
theorem claim_C2_counterexample :
    (GetData failAdapter c2State 5).1 = .error .ioError ∧
    (GetData failAdapter c2State 5).2.1.currentTimeStep = some 5 ∧
    c2State.currentTimeStep = some 3 ∧
    (GetData failAdapter c2State 5).2.1.data = c2State.data ∧
    (GetData failAdapter c2State 5).2.1.currentTime = c2State.currentTime ∧
    (GetData c2HipaceAdapter c2State 5).1 = .error .typeError ∧
    (GetData c2HipaceAdapter c2State 5).2.1.currentTimeStep = some 5 ∧
    (GetData c2HipaceAdapter c2State 5).2.1.currentTime = 9 ∧
    c2State.currentTime = 7 ∧
    (GetData c2HipaceAdapter c2State 5).2.1.data = c2State.data :=
  ⟨rfl, rfl, rfl, rfl, rfl, rfl, rfl, rfl, rfl, rfl⟩

/-- Claim C2 (amended): if the adapter's extraction raises during `GetData`
or `GetTime` for a new timestep, the exception propagates, `data` keeps its
prior value, but `currentTimeStep` has already been set to the requested
timestep (the assignment precedes the extraction call); `currentTime` keeps
its prior value exactly when the extraction raised before assigning it —
which holds for every OSIRIS failure path and for `GetTime` — whereas
HiPACE's `x1` read assigns `currentTime` from `TIME` before its `+=` raises
`TypeError`, leaving the newly read time in the cache as well.  In every
failing case the cache ends mismatched, not in its prior consistent state. -/
theorem claim_C2_failure_updates_timestep (A : Adapter) (s : ReaderState)
    (t : ℤ) (e e' : PyExc) (oT : Option ℚ)
    (hfresh : some t ≠ s.currentTimeStep)
    (hd : A.readData t = ⟨oT, .error e⟩) (htm : A.readTime t = .error e') :
    (GetData A s t).1 = .error e ∧
    (GetData A s t).2.1.currentTimeStep = some t ∧
    (GetData A s t).2.1.data = s.data ∧
    (GetData A s t).2.1.currentTime = oT.getD s.currentTime ∧
    (GetTime A s t).1 = .error e' ∧
    (GetTime A s t).2.1 = { s with currentTimeStep := some t } ∧
    (∀ rec tm, rec.timeAttr = some tm → rec.get "x1" = none →
      (hipaceExtract "x1" rec).2 = ⟨some tm, .error .typeError⟩) := by
  have hx1 : ∀ rec tm, rec.timeAttr = some tm → rec.get "x1" = none →
      (hipaceExtract "x1" rec).2 = ⟨some tm, .error .typeError⟩ := by
    intro rec tm hT hg
    simp [hipaceExtract, hT, hg, npArray]
  have hGT : GetTime A s t = (.error e', { s with currentTimeStep := some t }, 1) := by
    unfold GetTime
    rw [if_pos hfresh, htm]
  rcases oT with _ | tm
  · have hGD : GetData A s t = (.error e, { s with currentTimeStep := some t }, 1) := by
      unfold GetData
      rw [if_pos hfresh, hd]
    exact ⟨by rw [hGD], by rw [hGD], by rw [hGD], by rw [hGD]; rfl, by rw [hGT],
      by rw [hGT], hx1⟩
  · have hGD : GetData A s t =
        (.error e, { s with currentTimeStep := some t, currentTime := tm }, 1) := by
      unfold GetData
      rw [if_pos hfresh, hd]
    exact ⟨by rw [hGD], by rw [hGD], by rw [hGD], by rw [hGD]; rfl, by rw [hGT],
      by rw [hGT], hx1⟩

/-- Closed instance of the amended C2: the pre-assignment failure shape at a
concrete adapter and state, plus the HiPACE `x1` post-assignment raise on a
concrete record. -/
theorem claim_C2_witness :
    (GetData failAdapter c2State 5).1 = .error .ioError ∧
    (GetData failAdapter c2State 5).2.1.currentTimeStep = some 5 ∧
    (GetData failAdapter c2State 5).2.1.data = c2State.data ∧
    (GetData failAdapter c2State 5).2.1.currentTime = c2State.currentTime ∧
    (GetTime failAdapter c2State 5).1 = .error (.keyError "TIME") ∧
    (GetTime failAdapter c2State 5).2.1 = { c2State with currentTimeStep := some 5 } ∧
    (hipaceExtract "x1" failX1Record).2 = ⟨some 9, .error .typeError⟩ := by
  have h := claim_C2_failure_updates_timestep failAdapter c2State 5
    .ioError (.keyError "TIME") none (by decide) rfl rfl
  exact ⟨h.1, h.2.1, h.2.2.1, h.2.2.2.1, h.2.2.2.2.1, h.2.2.2.2.2.1,
    h.2.2.2.2.2.2 failX1Record 9 rfl rfl⟩

/-- Counterexample to claim C9 as stated: when the backend resolves a unit
string to the empty string — which the OSIRIS units reader produces on a file
whose `UNITS` (resp. `TIME UNITS`) attribute text is empty — the resolved
value collides with the unresolved sentinel, and two consecutive
`GetDataUnits()` (resp. `GetTimeUnits()`) calls each trigger an underlying
units resolution: two, not at most one, and no lifetime caching. -/
theorem claim_C9_counterexample :
    (osirisReadUnitsE "q" c9Record).2 = .ok ("", "s") ∧
    emptyUnitsAdapter.readUnits = .ok ("", "s") ∧
    (GetDataUnits emptyUnitsAdapter freshState).2.2 = 1 ∧
    (GetDataUnits emptyUnitsAdapter
      (GetDataUnits emptyUnitsAdapter freshState).2.1).2.2 = 1 ∧
    (osirisReadUnitsE "q" c9TimeRecord).2 = .ok ("u", "") ∧
    emptyTimeUnitsAdapter.readUnits = .ok ("u", "") ∧
    (GetTimeUnits emptyTimeUnitsAdapter freshState).2.2 = 1 ∧
    (GetTimeUnits emptyTimeUnitsAdapter
      (GetTimeUnits emptyTimeUnitsAdapter freshState).2.1).2.2 = 1 :=
  ⟨rfl, rfl, rfl, rfl, rfl, rfl, rfl, rfl⟩

/-- Claim C9 (amended): `GetDataUnits` and `GetTimeUnits` resolve lazily on
the first call and then return the same cached string with no further
resolution for the reader's lifetime — provided the respective resolved
string is non-empty; a resolution yielding an empty string is
indistinguishable from that getter's unresolved sentinel and is re-triggered
on every call.  A single `_ReadUnits` call sets both fields, so after either
getter's first call the other getter is already cached and performs no
resolution.  Resolution is timestep-independent: result and call count are
unaffected by `currentTimeStep`, `currentTime` and `data`. -/
theorem claim_C9_units_cached_once (A : Adapter) (s : ReaderState)
    (du tu : String) (hr : A.readUnits = .ok (du, tu)) (hdu : du ≠ "")
    (htu : tu ≠ "") (hs : s.dataUnits = "") (hst : s.timeUnits = "") :
    (GetDataUnits A s).2.2 = 1 ∧
    (GetDataUnits A s).1 = .ok du ∧
    (GetDataUnits A (GetDataUnits A s).2.1).2.2 = 0 ∧
    (GetDataUnits A (GetDataUnits A s).2.1).1 = .ok du ∧
    (GetTimeUnits A s).2.2 = 1 ∧
    (GetTimeUnits A s).1 = .ok tu ∧
    (GetTimeUnits A (GetTimeUnits A s).2.1).2.2 = 0 ∧
    (GetTimeUnits A (GetTimeUnits A s).2.1).1 = .ok tu ∧
    (GetTimeUnits A (GetDataUnits A s).2.1).2.2 = 0 ∧
    (GetTimeUnits A (GetDataUnits A s).2.1).1 = .ok tu ∧
    (GetDataUnits A (GetTimeUnits A s).2.1).2.2 = 0 ∧
    (GetDataUnits A (GetTimeUnits A s).2.1).1 = .ok du ∧
    (∀ o q d0, (GetDataUnits A { s with currentTimeStep := o, currentTime := q, data := d0 }).1
        = (GetDataUnits A s).1 ∧
      (GetDataUnits A { s with currentTimeStep := o, currentTime := q, data := d0 }).2.2
        = (GetDataUnits A s).2.2 ∧
      (GetTimeUnits A { s with currentTimeStep := o, currentTime := q, data := d0 }).1
        = (GetTimeUnits A s).1 ∧
      (GetTimeUnits A { s with currentTimeStep := o, currentTime := q, data := d0 }).2.2
        = (GetTimeUnits A s).2.2) := by
  have h1 : GetDataUnits A s = (.ok du, { s with dataUnits := du, timeUnits := tu }, 1) := by
    unfold GetDataUnits
    rw [if_pos hs, hr]
  have h2 : GetTimeUnits A s = (.ok tu, { s with dataUnits := du, timeUnits := tu }, 1) := by
    unfold GetTimeUnits
    rw [if_pos hst, hr]
  refine ⟨by rw [h1], by rw [h1], ?_, ?_, by rw [h2], by rw [h2], ?_, ?_, ?_, ?_, ?_, ?_, ?_⟩
  · rw [h1]
    simp [GetDataUnits, hdu]
  · rw [h1]
    simp [GetDataUnits, hdu]
  · rw [h2]
    simp [GetTimeUnits, htu]
  · rw [h2]
    simp [GetTimeUnits, htu]
  · rw [h1]
    simp [GetTimeUnits, htu]
  · rw [h1]
    simp [GetTimeUnits, htu]
  · rw [h2]
    simp [GetDataUnits, hdu]
  · rw [h2]
    simp [GetDataUnits, hdu]
  · intro o q d0
    unfold GetDataUnits GetTimeUnits
    rw [if_pos hs, if_pos hs, if_pos hst, if_pos hst, hr]
    exact ⟨rfl, rfl, rfl, rfl⟩

/-- Closed instance of the amended C9 at a concrete adapter and fresh state,
covering both getters and both call orders. -/
theorem claim_C9_witness :
    (GetDataUnits unitsAdapter freshState).2.2 = 1 ∧
    (GetDataUnits unitsAdapter freshState).1 = .ok "c/ \\omega_p" ∧
    (GetDataUnits unitsAdapter (GetDataUnits unitsAdapter freshState).2.1).2.2 = 0 ∧
    (GetDataUnits unitsAdapter (GetDataUnits unitsAdapter freshState).2.1).1
      = .ok "c/ \\omega_p" ∧
    (GetTimeUnits unitsAdapter freshState).2.2 = 1 ∧
    (GetTimeUnits unitsAdapter freshState).1 = .ok "1/ \\omega_p" ∧
    (GetTimeUnits unitsAdapter (GetTimeUnits unitsAdapter freshState).2.1).2.2 = 0 ∧
    (GetTimeUnits unitsAdapter (GetTimeUnits unitsAdapter freshState).2.1).1
      = .ok "1/ \\omega_p" ∧
    (GetTimeUnits unitsAdapter (GetDataUnits unitsAdapter freshState).2.1).2.2 = 0 ∧
    (GetTimeUnits unitsAdapter (GetDataUnits unitsAdapter freshState).2.1).1
      = .ok "1/ \\omega_p" ∧
    (GetDataUnits unitsAdapter (GetTimeUnits unitsAdapter freshState).2.1).2.2 = 0 ∧
    (GetDataUnits unitsAdapter (GetTimeUnits unitsAdapter freshState).2.1).1
      = .ok "c/ \\omega_p" := by
  obtain ⟨a1, a2, a3, a4, a5, a6, a7, a8, a9, a10, a11, a12, -⟩ :=
    claim_C9_units_cached_once unitsAdapter freshState
      "c/ \\omega_p" "1/ \\omega_p" rfl (by decide) (by decide) rfl rfl
  exact ⟨a1, a2, a3, a4, a5, a6, a7, a8, a9, a10, a11, a12⟩

/-- Counterexample to claim C3 as stated: the source computes the ID as
`1/2*(a+b)*(a+b+1)+b`, which in Python 3 is float64 arithmetic (`1/2` is the
float `0.5`).  At the integer tag pair `(a, b) = (0, 2^53 + 1)` the float64
value differs from the exact reference `(a+b)*(a+b+1)/2 + b`: the computed
double is `2^105 + 2^54` while the exact value is `2^105 + 2^54 + 2^52 + 2`. -/
theorem claim_C3_counterexample :
    floatCantor 0 9007199254740993 ≠ ((cantorRef 0 9007199254740993 : ℕ) : ℚ) := by
  decide

/-- Claim C3 (amended): the synthesized ID is `1/2*(a+b)*(a+b+1)+b` computed
in float64; it equals the exact Cantor reference on small tags — in
particular `(3,5) ↦ 41` and `(0,0) ↦ 0` — but deviates from the reference
formula for large tag components; the reference Cantor pairing itself is
injective on distinct pairs. -/
theorem claim_C3_cantor_pairing :
    floatCantor 3 5 = ((cantorRef 3 5 : ℕ) : ℚ) ∧
    floatCantor 3 5 = 41 ∧
    floatCantor 0 0 = 0 ∧
    ∀ a b a' b' : ℕ, cantorRef a b = cantorRef a' b' → a = a' ∧ b = b' :=
  ⟨by decide, by decide, by decide, cantorRef_injective⟩

/-- Closed instance of the amended C3: the concrete equalities together with
injectivity applied at the pair `(3, 5)`. -/
theorem claim_C3_witness :
    floatCantor 3 5 = 41 ∧ (3 = 3 ∧ 5 = 5) :=
  ⟨claim_C3_cantor_pairing.2.1, claim_C3_cantor_pairing.2.2.2 3 5 3 5 rfl⟩

/-- Claim C4 (confirmed): for the HiPACE adapter, a data read of `"x1"`
returns the stored array with the record's simulation time float-added to
every element; a read of any other stored non-tag field returns the stored
values; and for every field other than `"x1"` the returned data is
independent of the record's simulation time (no shift). -/
theorem claim_C4_comoving_shift (rec : H5Record) (xs : List ℚ) (tm : ℚ)
    (name : String) (hx : rec.get "x1" = some (.arr1 xs))
    (ht : rec.timeAttr = some tm) (hname : name ≠ "x1") :
    (hipaceExtract "x1" rec).2 = ⟨some tm, .ok (.arr1 (xs.map fun x => fadd x tm))⟩ ∧
    (∀ d0, name ≠ "tag" → rec.get name = some d0 →
      (hipaceExtract name rec).2 = ⟨some tm, .ok d0⟩) ∧
    (∀ tm', (hipaceExtract name { rec with timeAttr := some tm' }).2.result
        = (hipaceExtract name { rec with timeAttr := some tm }).2.result) := by
  refine ⟨?_, ?_, ?_⟩
  · simp [hipaceExtract, ht, hx, npArray]
  · intro d0 htag hget
    simp [hipaceExtract, ht, htag, hname, hget, npArray]
  · intro tm'
    by_cases htag : name = "tag"
    · subst htag
      rcases hget : npArray (rec.get "tag") with xs0 | ps0 | _ <;>
        simp [hipaceExtract, hget]
    · simp [hipaceExtract, htag, hname]

/-- Closed instance of C4: on `x1 = [1.0, -0.5]` at time `2.5` the read
yields `[3.5, 2.0]`; the `p1` read returns the stored `[3.0]` unshifted. -/
theorem claim_C4_witness :
    (hipaceExtract "x1" c4Record).2
      = ⟨some (mkRat 5 2), .ok (.arr1 ([1, mkRat (-1) 2].map fun x => fadd x (mkRat 5 2)))⟩ ∧
    (hipaceExtract "p1" c4Record).2 = ⟨some (mkRat 5 2), .ok (.arr1 [3])⟩ ∧
    ([1, mkRat (-1) 2].map fun x => fadd x (mkRat 5 2)) = [mkRat 7 2, 2] := by
  have h := claim_C4_comoving_shift c4Record [1, mkRat (-1) 2] (mkRat 5 2) "p1"
    rfl rfl (by decide)
  exact ⟨h.1, h.2.1 (.arr1 [3]) (by decide) rfl, by decide⟩

/-- On the success path, the OSIRIS data read closes the file it opened. -/
theorem osirisExtract_ok_trace (name : String) (rec : H5Record)
    (v : H5Data) (hv : (osirisExtract name rec).2.result = .ok v) :
    (osirisExtract name rec).1 = [Ev.openFile, Ev.closeFile] := by
  by_cases htag : name = "tag"
  · subst htag
    rcases hget : npArray (rec.get "tag") with xs0 | ps0 | _ <;>
      rcases ht : rec.timeAttr with _ | tm <;>
      simp [osirisExtract, hget, ht] at hv ⊢
  · rcases ht : rec.timeAttr with _ | tm <;>
      simp [osirisExtract, htag, ht] at hv ⊢

/-- On the success path, the HiPACE data read closes the file it opened. -/
theorem hipaceExtract_ok_trace (name : String) (rec : H5Record)
    (v : H5Data) (hv : (hipaceExtract name rec).2.result = .ok v) :
    (hipaceExtract name rec).1 = [Ev.openFile, Ev.closeFile] := by
  by_cases htag : name = "tag"
  · subst htag
    rcases hget : npArray (rec.get "tag") with xs0 | ps0 | _ <;>
      rcases ht : rec.timeAttr with _ | tm <;>
      simp [hipaceExtract, hget, ht] at hv ⊢
  · by_cases hx1 : name = "x1"
    · subst hx1
      rcases hget : npArray (rec.get "x1") with xs0 | ps0 | _ <;>
        rcases ht : rec.timeAttr with _ | tm <;>
        simp [hipaceExtract, hget, ht] at hv ⊢
    · rcases ht : rec.timeAttr with _ | tm <;>
        simp [hipaceExtract, htag, hx1, ht] at hv ⊢

/-- On the success path, the OSIRIS time read closes the file it opened. -/
theorem osirisReadTimeE_ok_trace (rec : H5Record) (v : ℚ)
    (hv : (osirisReadTimeE rec).2 = .ok v) :
    (osirisReadTimeE rec).1 = [Ev.openFile, Ev.closeFile] := by
  rcases ht : rec.timeAttr with _ | tm <;> simp [osirisReadTimeE, ht] at hv ⊢

/-- On the success path, the HiPACE time read closes the file it opened. -/
theorem hipaceReadTimeE_ok_trace (rec : H5Record) (v : ℚ)
    (hv : (hipaceReadTimeE rec).2 = .ok v) :
    (hipaceReadTimeE rec).1 = [Ev.openFile, Ev.closeFile] := by
  rcases ht : rec.timeAttr with _ | tm <;> simp [hipaceReadTimeE, ht] at hv ⊢

/-- On the success path, the OSIRIS units read closes the file it opened. -/
theorem osirisReadUnitsE_ok_trace (name : String) (rec : H5Record)
    (v : String × String) (hv : (osirisReadUnitsE name rec).2 = .ok v) :
    (osirisReadUnitsE name rec).1 = [Ev.openFile, Ev.closeFile] := by
  rcases hget : rec.get name with _ | d0 <;>
    rcases hu : rec.unitsAttrRaw name with _ | u <;>
    rcases htu : rec.timeUnitsAttrRaw with _ | tu <;>
    simp [osirisReadUnitsE, hget, hu, htu] at hv ⊢

/-- Counterexample to claim C5 as stated: on a file whose `p1` dataset exists
but whose `TIME` attribute is absent, the OSIRIS data read raises `KeyError`
after opening the file, and — having no try/finally — never executes
`file_content.close()`: the call returns with the handle still open. -/
theorem claim_C5_counterexample :
    (osirisExtract "p1" noTimeRecord).2.result = .error (.keyError "TIME") ∧
    (osirisExtract "p1" noTimeRecord).1 = [Ev.openFile] ∧
    Ev.closeFile ∉ (osirisExtract "p1" noTimeRecord).1 :=
  ⟨rfl, rfl, by decide⟩

/-- Claim C5 (amended): in every OSIRIS and HiPACE data, time and units read
that succeeds, the opened file is closed before the call returns, and the
HiPACE units read opens no file at all; but when reading a field or attribute
from the opened file fails, the close call is skipped (there is no
try/finally), so the handle is released only by garbage collection.  Handles
remain call-scoped: each call opens its own file. -/
theorem claim_C5_close_on_success (name : String) (rec : H5Record) :
    (∀ v, (osirisExtract name rec).2.result = .ok v →
      (osirisExtract name rec).1 = [Ev.openFile, Ev.closeFile]) ∧
    (∀ v, (hipaceExtract name rec).2.result = .ok v →
      (hipaceExtract name rec).1 = [Ev.openFile, Ev.closeFile]) ∧
    (∀ v, (osirisReadTimeE rec).2 = .ok v →
      (osirisReadTimeE rec).1 = [Ev.openFile, Ev.closeFile]) ∧
    (∀ v, (hipaceReadTimeE rec).2 = .ok v →
      (hipaceReadTimeE rec).1 = [Ev.openFile, Ev.closeFile]) ∧
    (∀ v, (osirisReadUnitsE name rec).2 = .ok v →
      (osirisReadUnitsE name rec).1 = [Ev.openFile, Ev.closeFile]) ∧
    (hipaceReadUnitsE name).1 = [] :=
  ⟨fun v hv => osirisExtract_ok_trace name rec v hv,
   fun v hv => hipaceExtract_ok_trace name rec v hv,
   fun v hv => osirisReadTimeE_ok_trace rec v hv,
   fun v hv => hipaceReadTimeE_ok_trace rec v hv,
   fun v hv => osirisReadUnitsE_ok_trace name rec v hv,
   rfl⟩

/-- Closed instance of the amended C5 on a fully well-formed file. -/
theorem claim_C5_witness :
    (osirisExtract "p1" okRecord).1 = [Ev.openFile, Ev.closeFile] ∧
    (hipaceExtract "tag" okRecord).1 = [Ev.openFile, Ev.closeFile] ∧
    (osirisReadTimeE okRecord).1 = [Ev.openFile, Ev.closeFile] ∧
    (osirisReadUnitsE "p1" okRecord).1 = [Ev.openFile, Ev.closeFile] ∧
    (hipaceReadUnitsE "p1").1 = [] := by
  have h1 := (claim_C5_close_on_success "p1" okRecord).1 (.arr1 [1]) rfl
  have h2 := (claim_C5_close_on_success "tag" okRecord).2.1
    (.arr1 [floatCantor 1 2]) rfl
  have h3 := (claim_C5_close_on_success "p1" okRecord).2.2.1 3 rfl
  have h4 := (claim_C5_close_on_success "p1" okRecord).2.2.2.2.1
    ("m_e c", "1/ \\omega_p") rfl
  exact ⟨h1, h2, h3, h4, rfl⟩

/-- Claim C6 (the code has a bug here): constructing the OpenPMD reader
without the collaborator installed does fail before any file is opened, but
line 174 spells the exception name `RunTimeError`, which is not a Python
builtin — evaluating the undefined identifier raises `NameError`, not a
`RuntimeError` carrying the actionable installation message. -/
theorem claim_C6_missing_dependency :
    openPMDInit false demoBootstrap = ([], .error (.nameError "RunTimeError")) ∧
    (openPMDInit false demoBootstrap).1 = [] ∧
    evalRaise "RunTimeError" openPMDInstallMsg = .nameError "RunTimeError" ∧
    (PyExc.nameError "RunTimeError") ≠ .runtimeError openPMDInstallMsg ∧
    evalRaise "RuntimeError" openPMDInstallMsg = .runtimeError openPMDInstallMsg := by
  refine ⟨?_, ?_, ?_, by decide, ?_⟩ <;> rfl

/-- Claim C10 (confirmed): `RawDataReaderBase.__init__` overwrites the stored
`internalName` with `dataName`, so after construction the two fields coincide,
the constructed reader does not depend on the supplied `internalName` at all,
and consequently every on-disk lookup made through the reader's adapter (data
extraction and units resolution both address datasets by
`descriptor.internalName`) uses `dataName`. -/
theorem claim_C10_internalName_overwritten
    (location species dataName internalName : String) (fts : ℤ)
    (fs : ℤ → Option H5Record) :
    (initRawReader location species dataName internalName fts).internalName
      = (initRawReader location species dataName internalName fts).dataName ∧
    initRawReader location species dataName internalName fts
      = initRawReader location species dataName dataName fts ∧
    osirisAdapterOf (initRawReader location species dataName internalName fts) fs
      = osirisAdapterOf (initRawReader location species dataName dataName fts) fs :=
  ⟨rfl, rfl, rfl⟩

end VisualPIC
